import Mathlib

/- Shallow embedding of examples/clients/python/jwt_auth_client.py: the
JWTAuthClient session manager (credential storage, the 401 refresh-and-retry
logic of `_make_request`, proactive renewal scheduling) together with the
operations `login`, `refresh`, `logout`, `set_tokens` and the timer callback
`_auto_refresh_token`.  HTTP exchanges are external: each potential exchange
is given to an operation as an `HTTPOutcome` value describing what the remote
service would answer.  Success bodies are assumed well-formed (the claims
never exercise malformed success JSON).  Time (`datetime.now()`) is passed in
as a natural number `now`, and expiry instants are naturals. -/

namespace JWTClient

/-- Mirror of the `JWTAuthError` exception class: fields `message`,
`status_code`, `error_code`, `details` (jwt_auth_client.py lines 283-292). -/
structure JWTAuthError where
  message : String
  status_code : Option Nat := none
  error_code : Option String := none
  details : Option String := none
deriving Repr, DecidableEq

/-- A parseable JSON error body, as consumed by `_make_request`:
`error_data.get("message")`, `error_data.get("code")`,
`error_data.get("details")`. -/
structure ErrorBody where
  message : Option String := none
  code : Option String := none
  details : Option String := none
deriving Repr, DecidableEq

/-- A non-2xx HTTP response as seen in the `HTTPError` handler:
its status code, the text `str(e)` of the exception, and the JSON body when
it parses (`body = none` models a `json.JSONDecodeError`). -/
structure ErrorResponse where
  status_code : Nat
  raw_text : String
  body : Option ErrorBody := none
deriving Repr, DecidableEq

/-- Outcome of one HTTP exchange: 2xx with a parsed body, or an
`HTTPError` raised by `raise_for_status` carrying the error response. -/
inductive HTTPOutcome (β : Type) where
  | success (body : β)
  | httpError (e : ErrorResponse)
deriving Repr, DecidableEq

/-- Success body of the login/refresh endpoints: `access_token`,
`refresh_token`, optional `expires_in` (read as
`response.get("expires_in", 3600)`). -/
structure TokenResponse where
  access_token : String
  refresh_token : String
  expires_in : Option Nat := none
deriving Repr, DecidableEq

/-- The mutable attributes of `JWTAuthClient`: `access_token`,
`refresh_token`, `token_expires_at`, `_refresh_timer` (modelled by the
interval of the pending live timer, `none` when no timer is pending), and
the `auto_refresh` configuration flag. -/
structure ClientState where
  access_token : Option String := none
  refresh_token : Option String := none
  token_expires_at : Option Nat := none
  refresh_timer : Option Int := none
  auto_refresh : Bool := true
deriving Repr, DecidableEq

/-- The state right after `__init__`: all token attributes `None`, no timer
(jwt_auth_client.py lines 39-42). -/
def initState (auto_refresh : Bool) : ClientState :=
  { auto_refresh := auto_refresh }

/-- Python truthiness of the `Optional[str]` token attributes, as used in
`if not self.refresh_token` and `... and self.refresh_token`: `None` and the
empty string are falsy. -/
def tokenHeld (t : Option String) : Bool :=
  match t with
  | none => false
  | some x => !(x == "")

/-- `_cancel_refresh_timer` (lines 256-260): cancel the pending timer. -/
def cancelRefreshTimer (s : ClientState) : ClientState :=
  { s with refresh_timer := none }

/-- `_schedule_token_refresh` (lines 234-246): cancel any pending timer,
compute `refresh_time = expires_in - 30`, and arm a one-shot timer with that
interval only when it is positive. -/
def scheduleTokenRefresh (s : ClientState) (expires_in : Nat) : ClientState :=
  let s0 := cancelRefreshTimer s
  let refresh_time : Int := (expires_in : Int) - 30
  if 0 < refresh_time then { s0 with refresh_timer := some refresh_time } else s0

/-- `_clear_tokens` (lines 262-267): null the three token attributes and
cancel the refresh timer. -/
def clearTokens (s : ClientState) : ClientState :=
  cancelRefreshTimer
    { s with access_token := none, refresh_token := none, token_expires_at := none }

/-- The identical token-store blocks of `login` (lines 126-133), `refresh`
(lines 149-156): install the three fields from the response and, when
`auto_refresh` is set, reschedule with the granted `expires_in`
(default 3600). -/
def storeTokens (s : ClientState) (now : Nat) (r : TokenResponse) : ClientState :=
  let expires_in := r.expires_in.getD 3600
  let s1 := { s with access_token := some r.access_token,
                     refresh_token := some r.refresh_token,
                     token_expires_at := some (now + expires_in) }
  if s1.auto_refresh then scheduleTokenRefresh s1 expires_in else s1

/-- The error parsing at the end of `_make_request` (lines 94-107): build a
`JWTAuthError` from the response JSON when it parses, else from the raw
status and exception text. -/
def parseError (e : ErrorResponse) : JWTAuthError :=
  match e.body with
  | some b =>
      { message := b.message.getD e.raw_text
        status_code := some e.status_code
        error_code := b.code
        details := b.details }
  | none =>
      { message := e.raw_text
        status_code := some e.status_code }

/-- `_make_request` when the 401 refresh branch cannot trigger (the call is
unauthenticated, as in login/refresh/signup): a 2xx body is returned, any
`HTTPError` is parsed into a `JWTAuthError` and raised. -/
def makeRequestBasic {β : Type} (first : HTTPOutcome β) : Except JWTAuthError β :=
  match first with
  | .success b => .ok b
  | .httpError e => .error (parseError e)

/-- `refresh` (lines 137-158): raise `JWTAuthError("No refresh token
available")` without any network call when no refresh token is held;
otherwise perform the (unauthenticated) POST /auth/refresh exchange, and on
success install the new tokens and reschedule.  The third component counts
the network calls performed. -/
def refreshOp (s : ClientState) (now : Nat) (env : HTTPOutcome TokenResponse) :
    Except JWTAuthError TokenResponse × ClientState × Nat :=
  if tokenHeld s.refresh_token then
    match makeRequestBasic env with
    | .ok r => (.ok r, storeTokens s now r, 1)
    | .error f => (.error f, s, 1)
  else
    (.error { message := "No refresh token available" }, s, 0)

/-- Call counts observed during one `_make_request` with
`authenticated=True`: HTTP exchanges performed, `refresh()` invocations,
and retried original calls. -/
structure Trace where
  transport : Nat
  refreshAttempts : Nat
  retriedCalls : Nat
deriving Repr, DecidableEq

/-- `_make_request` with `authenticated=True` (lines 55-107).  `first` is the
outcome of the initial exchange, `refreshEnv` the outcome the refresh
endpoint would give were it called, `retry` the outcome the retried original
call would give were it performed.  On a 401 with a (truthy) refresh token
held, `refresh()` is attempted and on its success the call is retried once;
any exception out of that inner block is swallowed (`except Exception:
pass`), after which the error parsed from the ORIGINAL 401 response is
raised.  Credentials are never cleared here. -/
def makeRequestAuth {β : Type} (s : ClientState) (now : Nat)
    (first : HTTPOutcome β) (refreshEnv : HTTPOutcome TokenResponse)
    (retry : HTTPOutcome β) :
    Except JWTAuthError β × ClientState × Trace :=
  match first with
  | .success b => (.ok b, s, ⟨1, 0, 0⟩)
  | .httpError e =>
      if e.status_code = 401 ∧ tokenHeld s.refresh_token = true then
        match refreshOp s now refreshEnv with
        | (.ok _, s1, n) =>
            match retry with
            | .success b => (.ok b, s1, ⟨1 + n + 1, 1, 1⟩)
            | .httpError _ => (.error (parseError e), s1, ⟨1 + n + 1, 1, 1⟩)
        | (.error _, s1, n) => (.error (parseError e), s1, ⟨1 + n, 1, 0⟩)
      else
        (.error (parseError e), s, ⟨1, 0, 0⟩)

/-- `login` (lines 117-135): unauthenticated POST /auth/login; on success
install the tokens and schedule the refresh. -/
def loginOp (s : ClientState) (now : Nat) (env : HTTPOutcome TokenResponse) :
    Except JWTAuthError TokenResponse × ClientState :=
  match makeRequestBasic env with
  | .ok r => (.ok r, storeTokens s now r)
  | .error f => (.error f, s)

/-- `set_tokens` (lines 224-232): install the three fields and, when
`auto_refresh` is set, schedule the refresh. -/
def setTokens (s : ClientState) (now : Nat) (access_tok refresh_tok : String)
    (expires_in : Nat) : ClientState :=
  let s1 := { s with access_token := some access_tok,
                     refresh_token := some refresh_tok,
                     token_expires_at := some (now + expires_in) }
  if s1.auto_refresh then scheduleTokenRefresh s1 expires_in else s1

/-- Result of `logout`: the dict literal for the no-token early return, or
the remote response body. -/
inductive LogoutResult (β : Type) where
  | alreadyLoggedOut
  | remote (body : β)
deriving Repr, DecidableEq

/-- `logout` (lines 160-176): early benign return when no refresh token is
held; otherwise an AUTHENTICATED POST /auth/logout guarded by `try/finally`
whose `finally` runs `_clear_tokens()` on every path, so the local state is
cleared whether the remote call returns or raises, and an exception still
propagates after the clearing. -/
def logoutOp {β : Type} (s : ClientState) (now : Nat)
    (first : HTTPOutcome β) (refreshEnv : HTTPOutcome TokenResponse)
    (retry : HTTPOutcome β) :
    Except JWTAuthError (LogoutResult β) × ClientState × Trace :=
  if tokenHeld s.refresh_token then
    match makeRequestAuth s now first refreshEnv retry with
    | (.ok b, s1, t) => (.ok (.remote b), clearTokens s1, t)
    | (.error f, s1, t) => (.error f, clearTokens s1, t)
  else
    (.ok .alreadyLoggedOut, s, ⟨0, 0, 0⟩)

/-- `_auto_refresh_token` (lines 248-254), the timer callback: call
`refresh()` inside `try/except Exception`, printing (observability sink,
returned here as the second component) on failure.  No exception escapes:
the function is total and returns only a state and the optionally reported
fault. -/
def autoRefreshToken (s : ClientState) (now : Nat)
    (env : HTTPOutcome TokenResponse) : ClientState × Option JWTAuthError :=
  match refreshOp s now env with
  | (.ok _, s1, _) => (s1, none)
  | (.error f, s1, _) => (s1, some f)

/-- One invocation of a public operation of the client, carrying the clock
value and the outcomes of the HTTP exchanges it may perform.  Opaque
response bodies of authenticated pass-through calls are taken at `Nat`. -/
inductive ClientOp where
  | loginC (now : Nat) (env : HTTPOutcome TokenResponse)
  | refreshC (now : Nat) (env : HTTPOutcome TokenResponse)
  | logoutC (now : Nat) (first : HTTPOutcome Nat)
      (refreshEnv : HTTPOutcome TokenResponse) (retry : HTTPOutcome Nat)
  | setC (now : Nat) (access_tok refresh_tok : String) (expires_in : Nat)
  | clearC
  | authCallC (now : Nat) (first : HTTPOutcome Nat)
      (refreshEnv : HTTPOutcome TokenResponse) (retry : HTTPOutcome Nat)
  | autoC (now : Nat) (env : HTTPOutcome TokenResponse)
deriving Repr

/-- The state transition of each operation (result value discarded). -/
def applyOp (s : ClientState) : ClientOp → ClientState
  | .loginC now env => (loginOp s now env).2
  | .refreshC now env => (refreshOp s now env).2.1
  | .logoutC now f re r => (logoutOp s now f re r).2.1
  | .setC now a rt e => setTokens s now a rt e
  | .clearC => clearTokens s
  | .authCallC now f re r => (makeRequestAuth s now f re r).2.1
  | .autoC now env => (autoRefreshToken s now env).1

/-- Run a sequence of operations from the freshly constructed client. -/
def run (auto : Bool) (ops : List ClientOp) : ClientState :=
  ops.foldl applyOp (initState auto)

/-- The pairing invariant of the spec: `access_token` and
`token_expires_at` are set together or both absent. -/
def pairInv (s : ClientState) : Prop :=
  s.access_token.isSome = s.token_expires_at.isSome

/-- The token-update section of `refresh` (lines 149-152) is three separate
interpreter-level assignments with no lock anywhere in the class; these are
the intermediate states a concurrently running reader can observe between
them: after `self.access_token = ...`, after `self.refresh_token = ...`,
after `self.token_expires_at = ...`. -/
def refreshUpdateStates (s : ClientState) (now : Nat) (r : TokenResponse) :
    List ClientState :=
  let s1 := { s with access_token := some r.access_token }
  let s2 := { s1 with refresh_token := some r.refresh_token }
  let s3 := { s2 with token_expires_at := some (now + r.expires_in.getD 3600) }
  [s1, s2, s3]

/-- The update is atomic for a concurrent reader iff every intermediate
observable state coincides with the pre-state or with the fully written
post-state. -/
def credentialsAtomicUpdate (s : ClientState) (now : Nat) (r : TokenResponse) : Prop :=
  ∀ t ∈ refreshUpdateStates s now r,
    t = s ∨
    t = { s with access_token := some r.access_token,
                 refresh_token := some r.refresh_token,
                 token_expires_at := some (now + r.expires_in.getD 3600) }

/-- Fixture: a client holding a full credential pair. -/
def sHeld : ClientState :=
  { access_token := some "oldA", refresh_token := some "oldR",
    token_expires_at := some 100, refresh_timer := none, auto_refresh := true }

/-- Fixture: a 401 response whose body parses with message "Unauthorized". -/
def e401resp : ErrorResponse :=
  { status_code := 401, raw_text := "401 Client Error: Unauthorized",
    body := some { message := some "Unauthorized" } }

/-- Fixture: a 401 on the refresh endpoint (refresh token revoked). -/
def eRevoked : ErrorResponse :=
  { status_code := 401, raw_text := "401 Client Error: Unauthorized",
    body := some { message := some "refresh token revoked" } }

/-- Fixture: a 500 whose body does not parse as JSON. -/
def e500resp : ErrorResponse :=
  { status_code := 500, raw_text := "500 Server Error" }

/-- Fixture: a fresh token pair granted for 3600 seconds. -/
def rNew : TokenResponse :=
  { access_token := "newA", refresh_token := "newR", expires_in := some 3600 }

/-- Fixture: a token pair granted for only 10 seconds. -/
def rShort : TokenResponse :=
  { access_token := "shortA", refresh_token := "shortR", expires_in := some 10 }

/-- C2: an authenticated `_make_request` performs at most one refresh attempt
and at most one retried call, whatever the outcomes of the three potential
exchanges (in particular a 401 from the refresh endpoint itself cannot
trigger a second refresh, since `refresh` issues its call unauthenticated);
and when the first exchange succeeds the trace is exactly one transport
call, no refresh, no retry. -/
theorem authCall_bounded_retry {β : Type} (s : ClientState) (now : Nat)
    (first : HTTPOutcome β) (refreshEnv : HTTPOutcome TokenResponse)
    (retry : HTTPOutcome β) (b : β) :
    ((makeRequestAuth s now first refreshEnv retry).2.2.refreshAttempts ≤ 1 ∧
      (makeRequestAuth s now first refreshEnv retry).2.2.retriedCalls ≤ 1) ∧
    (makeRequestAuth s now (HTTPOutcome.success b) refreshEnv retry).2.2 =
      ⟨1, 0, 0⟩ := by
  constructor
  · cases first with
    | success b0 => simp [makeRequestAuth]
    | httpError e =>
        simp only [makeRequestAuth]
        split
        · rcases hr : refreshOp s now refreshEnv with ⟨res, s1, n⟩
          cases res with
          | ok r => cases retry <;> simp [hr]
          | error f => simp [hr]
        · simp
  · rfl

/-- C4: `logout` invoked while a refresh token is held clears the local
credential pair and disarms the timer, whatever the remote exchanges do. -/
theorem logout_clears_locally {β : Type} (s : ClientState) (now : Nat)
    (first : HTTPOutcome β) (refreshEnv : HTTPOutcome TokenResponse)
    (retry : HTTPOutcome β) (hh : tokenHeld s.refresh_token = true) :
    (logoutOp s now first refreshEnv retry).2.1.access_token = none ∧
    (logoutOp s now first refreshEnv retry).2.1.refresh_token = none ∧
    (logoutOp s now first refreshEnv retry).2.1.token_expires_at = none ∧
    (logoutOp s now first refreshEnv retry).2.1.refresh_timer = none := by
  rcases hm : makeRequestAuth s now first refreshEnv retry with ⟨res, s1, t⟩
  cases res <;>
    simp [logoutOp, hh, hm, clearTokens, cancelRefreshTimer]

/-- C4 witness: concrete held state, remote revocation failing with 500. -/
theorem logout_clears_locally_witness :
    (logoutOp sHeld 0 (HTTPOutcome.httpError e500resp)
        (HTTPOutcome.success rNew)
        (HTTPOutcome.success (0 : Nat))).2.1.access_token = none ∧
    (logoutOp sHeld 0 (HTTPOutcome.httpError e500resp)
        (HTTPOutcome.success rNew)
        (HTTPOutcome.success (0 : Nat))).2.1.refresh_token = none ∧
    (logoutOp sHeld 0 (HTTPOutcome.httpError e500resp)
        (HTTPOutcome.success rNew)
        (HTTPOutcome.success (0 : Nat))).2.1.token_expires_at = none ∧
    (logoutOp sHeld 0 (HTTPOutcome.httpError e500resp)
        (HTTPOutcome.success rNew)
        (HTTPOutcome.success (0 : Nat))).2.1.refresh_timer = none :=
  logout_clears_locally sHeld 0 (HTTPOutcome.httpError e500resp)
    (HTTPOutcome.success rNew) (HTTPOutcome.success (0 : Nat)) (by decide)

/-- C5: with auto-renewal enabled, a successful login, refresh or
`set_tokens` granting lifetime `v` seconds arms the renewal timer with
interval `v - 30` exactly when that value is positive, and arms no timer
otherwise. -/
theorem scheduler_arm_policy (s : ClientState) (now v : Nat)
    (r : TokenResponse) (a rt : String) (hv : r.expires_in = some v)
    (ha : s.auto_refresh = true) :
    ((loginOp s now (HTTPOutcome.success r)).2.refresh_timer =
        if 0 < (v : Int) - 30 then some ((v : Int) - 30) else none) ∧
    (tokenHeld s.refresh_token = true →
      (refreshOp s now (HTTPOutcome.success r)).2.1.refresh_timer =
        if 0 < (v : Int) - 30 then some ((v : Int) - 30) else none) ∧
    ((setTokens s now a rt v).refresh_timer =
        if 0 < (v : Int) - 30 then some ((v : Int) - 30) else none) := by
  refine ⟨?_, fun hh => ?_, ?_⟩
  · simp only [loginOp, makeRequestBasic, storeTokens, scheduleTokenRefresh,
      cancelRefreshTimer, hv, ha, Option.getD, if_true]
    split <;> simp_all
  · simp only [refreshOp, makeRequestBasic, storeTokens, scheduleTokenRefresh,
      cancelRefreshTimer, hv, ha, hh, Option.getD, if_true]
    split <;> simp_all
  · simp only [setTokens, scheduleTokenRefresh, cancelRefreshTimer, hv, ha,
      Option.getD, if_true]
    split <;> simp_all

/-- C5 witness: the first login from the freshly initialised
(unauthenticated) client arms 3570 seconds for `expires_in = 3600` and no
timer for `expires_in = 10`; a refresh from a held state likewise arms
3570. -/
theorem scheduler_arm_policy_witness :
    (loginOp (initState true) 0 (HTTPOutcome.success rNew)).2.refresh_timer =
      some 3570 ∧
    (loginOp (initState true) 0
        (HTTPOutcome.success rShort)).2.refresh_timer = none ∧
    (refreshOp sHeld 0 (HTTPOutcome.success rNew)).2.1.refresh_timer =
      some 3570 := by
  refine ⟨?_, ?_, ?_⟩
  · rw [(scheduler_arm_policy (initState true) 0 3600 rNew "a" "r" rfl rfl).1]
    decide
  · rw [(scheduler_arm_policy (initState true) 0 10 rShort "a" "r" rfl
      rfl).1]
    decide
  · rw [(scheduler_arm_policy sHeld 0 3600 rNew "a" "r" rfl rfl).2.1
      (by decide)]
    decide

/-- C6 counterexample: with no refresh token, `refresh` raises the message
"No refresh token available" (capital N), not the claimed lowercase
"no refresh token available". -/
theorem refresh_no_token_message_cex :
    (refreshOp (initState true) 0 (HTTPOutcome.success rNew)).1 =
      Except.error { message := "No refresh token available" } ∧
    "No refresh token available" ≠ "no refresh token available" := by
  exact ⟨rfl, by decide⟩

/-- C6 amended: with no (truthy) refresh token held, `refresh` fails with
the exact message "No refresh token available", performs no network call,
and leaves the stored state unchanged. -/
theorem refresh_no_token (s : ClientState) (now : Nat)
    (env : HTTPOutcome TokenResponse)
    (h : tokenHeld s.refresh_token = false) :
    refreshOp s now env =
      (Except.error { message := "No refresh token available" }, s, 0) := by
  simp [refreshOp, h]

/-- C6 witness: the freshly initialised client. -/
theorem refresh_no_token_witness :
    refreshOp (initState true) 5 (HTTPOutcome.success rNew) =
      (Except.error { message := "No refresh token available" },
        initState true, 0) :=
  refresh_no_token (initState true) 5 (HTTPOutcome.success rNew) (by decide)

/-- C1 counterexample: token held, original call 401, the refresh attempt
itself 401: the credential pair is NOT cleared (the state comes back
unchanged, access token still present) and the propagated fault carries the
original response's message "Unauthorized", not "session expired". -/
theorem authCall_refresh_failure_cex :
    makeRequestAuth sHeld 1000 (HTTPOutcome.httpError e401resp)
        (HTTPOutcome.httpError eRevoked) (HTTPOutcome.success (0 : Nat)) =
      (Except.error { message := "Unauthorized", status_code := some 401 },
        sHeld, ⟨2, 1, 0⟩) ∧
    sHeld.access_token = some "oldA" ∧
    "Unauthorized" ≠ "session expired" := by
  exact ⟨rfl, rfl, by decide⟩

/-- C1 amended: when an authenticated call fails with 401 while a refresh
token is held and the single refresh attempt then fails on the wire, the
client clears nothing — the state is returned unchanged — and the fault
propagated to the caller is the Auth Fault parsed from the ORIGINAL 401
response (the refresh failure is swallowed), not a "session expired"
fault. -/
theorem authCall_refresh_failure_behavior {β : Type} (s : ClientState)
    (now : Nat) (e er : ErrorResponse) (retry : HTTPOutcome β)
    (hh : tokenHeld s.refresh_token = true) (h401 : e.status_code = 401) :
    makeRequestAuth s now (HTTPOutcome.httpError e)
        (HTTPOutcome.httpError er) retry =
      (Except.error (parseError e), s, ⟨2, 1, 0⟩) := by
  simp [makeRequestAuth, refreshOp, makeRequestBasic, hh, h401]

/-- C1 amended witness: the concrete revoked-refresh-token scenario. -/
theorem authCall_refresh_failure_behavior_witness :
    makeRequestAuth sHeld 1000 (HTTPOutcome.httpError e401resp)
        (HTTPOutcome.httpError eRevoked) (HTTPOutcome.success (7 : Nat)) =
      (Except.error (parseError e401resp), sHeld, ⟨2, 1, 0⟩) :=
  authCall_refresh_failure_behavior sHeld 1000 e401resp eRevoked
    (HTTPOutcome.success (7 : Nat)) (by decide) (by decide)

/-- C3 counterexample: original call 401, refresh succeeds, retried call
fails with 500: the caller receives the fault parsed from the ORIGINAL 401
response (status 401, message "Unauthorized"), which differs from the
retried call's 500 fault. -/
theorem authCall_retry_failure_cex :
    makeRequestAuth sHeld 1000
        (HTTPOutcome.httpError e401resp : HTTPOutcome Nat)
        (HTTPOutcome.success rNew) (HTTPOutcome.httpError e500resp) =
      (Except.error { message := "Unauthorized", status_code := some 401 },
        storeTokens sHeld 1000 rNew, ⟨3, 1, 1⟩) ∧
    (parseError e500resp).status_code = some 500 ∧
    (some 401 : Option Nat) ≠ some 500 := by
  exact ⟨rfl, rfl, by decide⟩

/-- C3 amended: a first-call fault other than an eligible 401 propagates to
the caller exactly as parsed from that failing call; but when the
401-triggered refresh succeeds and the retried call fails, the retried
call's fault is swallowed and the caller receives the fault parsed from the
ORIGINAL 401 response (the new tokens from the refresh are kept). -/
theorem authCall_fault_source {β : Type} (s : ClientState) (now : Nat)
    (e er : ErrorResponse) (r : TokenResponse)
    (renv : HTTPOutcome TokenResponse) (retry : HTTPOutcome β)
    (hh : tokenHeld s.refresh_token = true) :
    (e.status_code = 401 →
      makeRequestAuth s now (HTTPOutcome.httpError e)
          (HTTPOutcome.success r)
          (HTTPOutcome.httpError er : HTTPOutcome β) =
        (Except.error (parseError e), storeTokens s now r, ⟨3, 1, 1⟩)) ∧
    (e.status_code ≠ 401 →
      makeRequestAuth s now (HTTPOutcome.httpError e) renv retry =
        (Except.error (parseError e), s, ⟨1, 0, 0⟩)) := by
  constructor
  · intro h401
    simp [makeRequestAuth, refreshOp, makeRequestBasic, hh, h401]
  · intro hne
    simp [makeRequestAuth, hne]

/-- C3 amended witness: both branches at concrete inputs (401 with failing
retry; plain 500 on the first call). -/
theorem authCall_fault_source_witness :
    makeRequestAuth sHeld 1000 (HTTPOutcome.httpError e401resp)
        (HTTPOutcome.success rNew)
        (HTTPOutcome.httpError e500resp : HTTPOutcome Nat) =
      (Except.error (parseError e401resp), storeTokens sHeld 1000 rNew,
        ⟨3, 1, 1⟩) ∧
    makeRequestAuth sHeld 1000 (HTTPOutcome.httpError e500resp)
        (HTTPOutcome.success rNew) (HTTPOutcome.success (3 : Nat)) =
      (Except.error (parseError e500resp), sHeld, ⟨1, 0, 0⟩) := by
  constructor
  · exact (authCall_fault_source sHeld 1000 e401resp e500resp rNew
      (HTTPOutcome.success rNew) (HTTPOutcome.success (3 : Nat))
      (by decide)).1 (by decide)
  · exact (authCall_fault_source sHeld 1000 e500resp e500resp rNew
      (HTTPOutcome.success rNew) (HTTPOutcome.success (3 : Nat))
      (by decide)).2 (by decide)

/-- Helper: `refresh` with a held token and a wire failure raises the
parsed fault and leaves the state unchanged, with one network call. -/
lemma refreshOp_held_err (s : ClientState) (now : Nat) (e : ErrorResponse)
    (h : tokenHeld s.refresh_token = true) :
    refreshOp s now (HTTPOutcome.httpError e) =
      (Except.error (parseError e), s, 1) := by
  simp [refreshOp, makeRequestBasic, h]

/-- Helper: `refresh` with a held token and a 2xx installs the tokens. -/
lemma refreshOp_held_ok (s : ClientState) (now : Nat) (r : TokenResponse)
    (h : tokenHeld s.refresh_token = true) :
    refreshOp s now (HTTPOutcome.success r) =
      (Except.ok r, storeTokens s now r, 1) := by
  simp [refreshOp, makeRequestBasic, h]

/-- Helper: `refresh` with no truthy refresh token fails locally. -/
lemma refreshOp_not_held (s : ClientState) (now : Nat)
    (env : HTTPOutcome TokenResponse)
    (h : tokenHeld s.refresh_token = false) :
    refreshOp s now env =
      (Except.error { message := "No refresh token available" }, s, 0) := by
  simp [refreshOp, h]

/-- C9: when the refresh performed inside the timer callback fails, the
callback swallows the fault — `_auto_refresh_token` is total and only hands
the fault to the observability sink (its second component) — the stored
state comes back unchanged, and no new timer is armed (the timer field is
exactly the incoming one). -/
theorem auto_refresh_failure_contained (s : ClientState) (now : Nat)
    (env : HTTPOutcome TokenResponse) (f : JWTAuthError)
    (hf : (refreshOp s now env).1 = Except.error f) :
    autoRefreshToken s now env = (s, some f) := by
  by_cases h : tokenHeld s.refresh_token = true
  · cases env with
    | success r =>
        rw [refreshOp_held_ok s now r h] at hf
        exact absurd hf (by simp)
    | httpError e =>
        rw [refreshOp_held_err s now e h] at hf
        simp only [Except.error.injEq] at hf
        subst hf
        simp [autoRefreshToken, refreshOp_held_err s now e h]
  · have h0 : tokenHeld s.refresh_token = false := by
      cases hb : tokenHeld s.refresh_token with
      | false => rfl
      | true => exact absurd hb h
    rw [refreshOp_not_held s now env h0] at hf
    simp only [Except.error.injEq] at hf
    subst hf
    simp [autoRefreshToken, refreshOp_not_held s now env h0]

/-- C9 witness: callback refresh failing on a revoked refresh token. -/
theorem auto_refresh_failure_contained_witness :
    autoRefreshToken sHeld 7 (HTTPOutcome.httpError eRevoked) =
      (sHeld, some { message := "refresh token revoked",
                     status_code := some 401 }) :=
  auto_refresh_failure_contained sHeld 7 (HTTPOutcome.httpError eRevoked)
    { message := "refresh token revoked", status_code := some 401 } rfl

/-- C10: when `logout` runs with a refresh token held and the remote
revocation call fails, the caller still receives exactly that fault AND the
local pair has been cleared: the `finally` clearing does not swallow the
exception. -/
theorem logout_fault_still_raised {β : Type} (s : ClientState) (now : Nat)
    (first : HTTPOutcome β) (refreshEnv : HTTPOutcome TokenResponse)
    (retry : HTTPOutcome β) (f : JWTAuthError)
    (hh : tokenHeld s.refresh_token = true)
    (hf : (makeRequestAuth s now first refreshEnv retry).1 =
      Except.error f) :
    (logoutOp s now first refreshEnv retry).1 = Except.error f ∧
    (logoutOp s now first refreshEnv retry).2.1.access_token = none ∧
    (logoutOp s now first refreshEnv retry).2.1.refresh_token = none ∧
    (logoutOp s now first refreshEnv retry).2.1.token_expires_at = none := by
  rcases hm : makeRequestAuth s now first refreshEnv retry with ⟨res, s1, t⟩
  rw [hm] at hf
  simp only at hf
  subst hf
  simp [logoutOp, hh, hm, clearTokens, cancelRefreshTimer]

/-- C10 witness: remote revocation failing with an unparseable 500. -/
theorem logout_fault_still_raised_witness :
    (logoutOp sHeld 3 (HTTPOutcome.httpError e500resp)
        (HTTPOutcome.success rNew) (HTTPOutcome.success (0 : Nat))).1 =
      Except.error { message := "500 Server Error",
                     status_code := some 500 } ∧
    (logoutOp sHeld 3 (HTTPOutcome.httpError e500resp)
        (HTTPOutcome.success rNew)
        (HTTPOutcome.success (0 : Nat))).2.1.access_token = none ∧
    (logoutOp sHeld 3 (HTTPOutcome.httpError e500resp)
        (HTTPOutcome.success rNew)
        (HTTPOutcome.success (0 : Nat))).2.1.refresh_token = none ∧
    (logoutOp sHeld 3 (HTTPOutcome.httpError e500resp)
        (HTTPOutcome.success rNew)
        (HTTPOutcome.success (0 : Nat))).2.1.token_expires_at = none :=
  logout_fault_still_raised sHeld 3 (HTTPOutcome.httpError e500resp)
    (HTTPOutcome.success rNew) (HTTPOutcome.success (0 : Nat))
    { message := "500 Server Error", status_code := some 500 }
    (by decide) rfl

/-- Helper: the token-store block always installs access token and expiry
together. -/
lemma pairInv_storeTokens (s : ClientState) (now : Nat) (r : TokenResponse) :
    pairInv (storeTokens s now r) := by
  simp only [pairInv, storeTokens, scheduleTokenRefresh, cancelRefreshTimer]
  split_ifs <;> rfl

/-- Helper: clearing nulls both fields. -/
lemma pairInv_clearTokens (s : ClientState) : pairInv (clearTokens s) := rfl

/-- Helper: `set_tokens` installs both fields. -/
lemma pairInv_setTokens (s : ClientState) (now : Nat) (a rt : String)
    (e : Nat) : pairInv (setTokens s now a rt e) := by
  simp only [pairInv, setTokens, scheduleTokenRefresh, cancelRefreshTimer]
  split_ifs <;> rfl

/-- Helper: `refresh` preserves the pairing invariant. -/
lemma pairInv_refreshOp (s : ClientState) (now : Nat)
    (env : HTTPOutcome TokenResponse) (h : pairInv s) :
    pairInv (refreshOp s now env).2.1 := by
  by_cases hh : tokenHeld s.refresh_token = true
  · cases env with
    | success r =>
        rw [refreshOp_held_ok s now r hh]
        exact pairInv_storeTokens s now r
    | httpError e =>
        rw [refreshOp_held_err s now e hh]
        exact h
  · have h0 : tokenHeld s.refresh_token = false := by
      cases hb : tokenHeld s.refresh_token with
      | false => rfl
      | true => exact absurd hb hh
    rw [refreshOp_not_held s now env h0]
    exact h

/-- Helper: the state after an authenticated `_make_request` is either the
incoming one or the one produced by the inner `refresh`. -/
lemma makeRequestAuth_state {β : Type} (s : ClientState) (now : Nat)
    (first : HTTPOutcome β) (refreshEnv : HTTPOutcome TokenResponse)
    (retry : HTTPOutcome β) :
    (makeRequestAuth s now first refreshEnv retry).2.1 = s ∨
    (makeRequestAuth s now first refreshEnv retry).2.1 =
      (refreshOp s now refreshEnv).2.1 := by
  cases first with
  | success b => exact Or.inl rfl
  | httpError e =>
      simp only [makeRequestAuth]
      split
      · rcases hr : refreshOp s now refreshEnv with ⟨res, s1, n⟩
        cases res with
        | ok r => cases retry <;> exact Or.inr rfl
        | error f => exact Or.inr rfl
      · exact Or.inl rfl

/-- Helper: the state after `logout` is either the incoming one (no token
held) or the cleared version of the state the inner request left. -/
lemma logoutOp_state {β : Type} (s : ClientState) (now : Nat)
    (first : HTTPOutcome β) (refreshEnv : HTTPOutcome TokenResponse)
    (retry : HTTPOutcome β) :
    (logoutOp s now first refreshEnv retry).2.1 = s ∨
    (logoutOp s now first refreshEnv retry).2.1 =
      clearTokens (makeRequestAuth s now first refreshEnv retry).2.1 := by
  unfold logoutOp
  split
  · rcases hm : makeRequestAuth s now first refreshEnv retry with ⟨res, s1, t⟩
    cases res <;> exact Or.inr rfl
  · exact Or.inl rfl

/-- Helper: the timer callback ends in the state the inner `refresh`
produced. -/
lemma autoRefreshToken_state (s : ClientState) (now : Nat)
    (env : HTTPOutcome TokenResponse) :
    (autoRefreshToken s now env).1 = (refreshOp s now env).2.1 := by
  unfold autoRefreshToken
  rcases hr : refreshOp s now env with ⟨res, s1, n⟩
  cases res <;> rfl

/-- Helper: the authenticated `_make_request` preserves the invariant. -/
lemma pairInv_makeRequestAuth {β : Type} (s : ClientState) (now : Nat)
    (first : HTTPOutcome β) (refreshEnv : HTTPOutcome TokenResponse)
    (retry : HTTPOutcome β) (h : pairInv s) :
    pairInv (makeRequestAuth s now first refreshEnv retry).2.1 := by
  rcases makeRequestAuth_state s now first refreshEnv retry with hs | hs <;>
    rw [hs]
  · exact h
  · exact pairInv_refreshOp s now refreshEnv h

/-- Helper: `logout` preserves the invariant. -/
lemma pairInv_logoutOp {β : Type} (s : ClientState) (now : Nat)
    (first : HTTPOutcome β) (refreshEnv : HTTPOutcome TokenResponse)
    (retry : HTTPOutcome β) (h : pairInv s) :
    pairInv (logoutOp s now first refreshEnv retry).2.1 := by
  rcases logoutOp_state s now first refreshEnv retry with hs | hs <;> rw [hs]
  · exact h
  · exact pairInv_clearTokens _

/-- Helper: every operation preserves the pairing invariant. -/
lemma pairInv_applyOp (s : ClientState) (op : ClientOp) (h : pairInv s) :
    pairInv (applyOp s op) := by
  cases op with
  | loginC now env =>
      cases env with
      | success r =>
          simpa [applyOp, loginOp, makeRequestBasic] using
            pairInv_storeTokens s now r
      | httpError e => simpa [applyOp, loginOp, makeRequestBasic] using h
  | refreshC now env =>
      simpa [applyOp] using pairInv_refreshOp s now env h
  | logoutC now first refreshEnv retry =>
      simpa [applyOp] using pairInv_logoutOp s now first refreshEnv retry h
  | setC now a rt e => simpa [applyOp] using pairInv_setTokens s now a rt e
  | clearC => simpa [applyOp] using pairInv_clearTokens s
  | authCallC now first refreshEnv retry =>
      simpa [applyOp] using
        pairInv_makeRequestAuth s now first refreshEnv retry h
  | autoC now env =>
      have h1 := pairInv_refreshOp s now env h
      have hs := autoRefreshToken_state s now env
      simp only [applyOp]
      rw [hs]
      exact h1

/-- C7: the pairing invariant — access token and expiry both set or both
absent — holds in the freshly initialised client and after every sequence
of public operations (login, refresh, logout, set_tokens, clear,
authenticated calls and timer callbacks), hence in every reachable state. -/
theorem pairing_invariant_reachable (auto : Bool) (ops : List ClientOp) :
    pairInv (run auto ops) := by
  suffices h : ∀ s, pairInv s → pairInv (ops.foldl applyOp s) by
    exact h (initState auto) rfl
  induction ops with
  | nil => exact fun s hs => hs
  | cons op rest ih =>
      exact fun s hs => ih (applyOp s op) (pairInv_applyOp s op hs)

/-- C8 counterexample: at a concrete held state the intermediate state
after the first assignment of the refresh token-update differs from both
the pre-state and the post-state, so the update is not atomic — a reader
interleaved there observes the freshly written access token "newA" paired
with the stale expiry instant 100. -/
theorem credential_update_not_atomic_cex :
    ¬ credentialsAtomicUpdate sHeld 1000 rNew ∧
    (refreshUpdateStates sHeld 1000 rNew).head?.map
        (fun t => (t.access_token, t.token_expires_at)) =
      some (some "newA", some 100) := by
  refine ⟨?_, rfl⟩
  intro hat
  rcases hat { sHeld with access_token := some "newA" } (by decide)
    with h | h
  · exact absurd (congrArg ClientState.access_token h) (by decide)
  · exact absurd (congrArg ClientState.token_expires_at h) (by decide)

/-- C8 amended: the store operations are unsynchronised field assignments
(there is no lock in the class); whenever the refresh response carries an
access token different from the stored one, a reader interleaved after the
first assignment of the update observes the new access token paired with
the stale expiry, and when the expiry also changes the update is not atomic
for concurrent readers. -/
theorem credential_update_torn_read (s : ClientState) (now : Nat)
    (r : TokenResponse) (hA : s.access_token ≠ some r.access_token)
    (hE : s.token_expires_at ≠ some (now + r.expires_in.getD 3600)) :
    (∃ t ∈ refreshUpdateStates s now r,
        t.access_token = some r.access_token ∧
        t.token_expires_at = s.token_expires_at ∧ t ≠ s) ∧
    ¬ credentialsAtomicUpdate s now r := by
  have hmem : { s with access_token := some r.access_token } ∈
      refreshUpdateStates s now r := by
    unfold refreshUpdateStates
    exact List.mem_cons_self _ _
  constructor
  · refine ⟨{ s with access_token := some r.access_token }, hmem, rfl, rfl,
      fun h => hA ?_⟩
    exact (congrArg ClientState.access_token h).symm
  · intro hat
    rcases hat _ hmem with h | h
    · exact hA (congrArg ClientState.access_token h).symm
    · exact hE (congrArg ClientState.token_expires_at h)

/-- C8 amended witness: the concrete held state and fresh token pair. -/
theorem credential_update_torn_read_witness :
    (∃ t ∈ refreshUpdateStates sHeld 1000 rNew,
        t.access_token = some "newA" ∧
        t.token_expires_at = some 100 ∧ t ≠ sHeld) ∧
    ¬ credentialsAtomicUpdate sHeld 1000 rNew :=
  credential_update_torn_read sHeld 1000 rNew (by decide) (by decide)

end JWTClient
